import Mathlib

/-!
Verification of the inet-dash repository against its specification.

The development shallowly embeds the behaviour-relevant parts of the two
source files:

* `inet_scraper_async_table.py` — the table extraction core of
  `scrape_table` (an HTML node model, header/data-row location, record
  building) and the decision structure of `WebScraperAsync.login`;
* `app.py` — `categorize_equipment` (date parsing via the nine `strptime`
  formats, calibration classification, the serial-number cross-reference
  join), `update_equipment_data` (snapshot replacement), and the
  `refresh_data` trigger handler.

HTML documents are modelled as a tree of element/text nodes carrying the
attributes the code inspects (tag, id, class list).  Python dictionaries
keyed by strings are modelled as association lists with Python's
insert-or-overwrite-in-place assignment semantics.
-/

namespace Inet

/-- `charsStartWith hay needle` : `needle` is a prefix of `hay` (character lists). -/
def charsStartWith : List Char → List Char → Bool
  | _, [] => true
  | [], _ :: _ => false
  | c :: cs, d :: ds => c == d && charsStartWith cs ds

/-- `charsContain needle hay` : `needle` occurs contiguously inside `hay`. -/
def charsContain (n : List Char) : List Char → Bool
  | [] => charsStartWith [] n
  | c :: cs => charsStartWith (c :: cs) n || charsContain n cs

/-- Python's substring test `needle in hay`. -/
def strContains (hay needle : String) : Bool := charsContain needle.data hay.data

/-- Python `str.strip()`: drop whitespace from both ends. -/
def pyStrip (s : String) : String :=
  ⟨((s.data.dropWhile Char.isWhitespace).reverse.dropWhile Char.isWhitespace).reverse⟩

/-- Python `str.lower()` (ASCII case folding suffices for the code's uses). -/
def pyLower (s : String) : String := ⟨s.data.map Char.toLower⟩

/-- HTML node: a text fragment, or an element with tag name, optional `id`
attribute, class list, and children — the attributes `scrape_table` inspects. -/
inductive Node : Type where
  | text (s : String)
  | elem (tag : String) (idAttr : Option String) (classes : List String) (children : List Node)

mutual

/-- All descendant nodes in document (pre)order, excluding the node itself —
the search space of BeautifulSoup's `find` / `find_all`. -/
def descendants : Node → List Node
  | .text _ => []
  | .elem _ _ _ cs => descendantsList cs

def descendantsList : List Node → List Node
  | [] => []
  | c :: cs => c :: descendants c ++ descendantsList cs

end

mutual

/-- BeautifulSoup `get_text(strip=True)`: concatenation of the stripped text
fragments below a node, in document order. -/
def getTextStrip : Node → String
  | .text s => pyStrip s
  | .elem _ _ _ cs => getTextStripList cs

def getTextStripList : List Node → String
  | [] => ""
  | c :: cs => getTextStrip c ++ getTextStripList cs

end

def Node.tagOf : Node → Option String
  | .text _ => none
  | .elem t _ _ _ => some t

def Node.idOf : Node → Option String
  | .text _ => none
  | .elem _ i _ _ => i

def Node.classesOf : Node → List String
  | .text _ => []
  | .elem _ _ cls _ => cls

def Node.childrenOf : Node → List Node
  | .text _ => []
  | .elem _ _ _ cs => cs

/-- BeautifulSoup `find_all(pred)` (recursive, document order). -/
def findAll (p : Node → Bool) (n : Node) : List Node := (descendants n).filter p

/-- BeautifulSoup `find(pred)`: first matching descendant, if any. -/
def findFirst (p : Node → Bool) (n : Node) : Option Node := (descendants n).find? p

/-- BeautifulSoup `find_all(pred, recursive=False)`: direct children only. -/
def findAllDirect (p : Node → Bool) (n : Node) : List Node := n.childrenOf.filter p

/-- Header-row id marker (`inet_scraper_async_table.py:487`). -/
def headerRowMarker : String := "DXHeadersRow0"

/-- Data-row id marker (`inet_scraper_async_table.py:526`). -/
def dataRowMarker : String := "DXDataRow"

/-- Header-cell class marker (`inet_scraper_async_table.py:495`). -/
def headerCellClass : String := "dxgvHeader_Moderno"

/-- Default `table_id` argument of `scrape_table`. -/
def defaultTableId : String := "ctl00_ctl00_ctl00_cph1_main_dr_Grid_DXMainTable"

/-- `soup.find('table', id=table_id)` match condition. -/
def isTableWithId (tid : String) (n : Node) : Bool :=
  n.tagOf == some "table" && n.idOf == some tid

/-- The id filter `lambda x: x and marker in x` used on rows. -/
def idHas (marker : String) (n : Node) : Bool :=
  match n.idOf with
  | some x => strContains x marker
  | none => false

def isHeaderRow (n : Node) : Bool := n.tagOf == some "tr" && idHas headerRowMarker n

def isDataRow (n : Node) : Bool := n.tagOf == some "tr" && idHas dataRowMarker n

def isHeaderCell (n : Node) : Bool :=
  n.tagOf == some "td" && (n.classesOf).contains headerCellClass

def isTd (n : Node) : Bool := n.tagOf == some "td"

def isTag (t : String) (n : Node) : Bool := n.tagOf == some t

/-- Header text of one header cell (`inet_scraper_async_table.py:496-521`):
the text of the first cell of the first row of the nested table if present,
empty-string placeholders at each missing level, and the cell's own text as
fallback when there is no nested table. -/
def headerText (cell : Node) : String :=
  match findFirst (isTag "table") cell with
  | some nestedTable =>
    match findFirst (isTag "tr") nestedTable with
    | some firstRow =>
      match findFirst (isTag "td") firstRow with
      | some firstCell => getTextStrip firstCell
      | none => ""
    | none => ""
  | none => getTextStrip cell

/-- A scraped row record: a Python `dict` from header name to cell text,
modelled as an insertion-ordered association list. -/
abbrev Record := List (String × String)

/-- First value stored under key `k`, if any (keys of a built dict are unique). -/
def recFind? (r : Record) (k : String) : Option String :=
  (r.find? (fun p => p.1 == k)).map (fun p => p.2)

/-- Python `r.get(k, d)`. -/
def recGetD (r : Record) (k : String) (d : String) : String := (recFind? r k).getD d

/-- Python dict assignment `d[k] = v`: overwrite in place if the key is
present (keeping its position), else append. -/
def dictInsert (k v : String) (d : Record) : Record :=
  if d.any (fun p => p.1 == k) then d.map (fun p => if p.1 == k then (k, v) else p)
  else d ++ [(k, v)]

/-- `row_data[headers[i]] = cell_text` over all cells
(`inet_scraper_async_table.py:534-538`); lengths are equal at the call site. -/
def mkRecord (headers : List String) (cellTexts : List String) : Record :=
  (headers.zip cellTexts).foldl (fun d p => dictInsert p.1 p.2 d) []

/-- `row.find_all('td')` — all descendant cells of a data row. -/
def rowCells (row : Node) : List Node := findAll isTd row

/-- The data-row loop (`inet_scraper_async_table.py:530-539`): a row
contributes a record only when its cell count equals the header count. -/
def extractRows (headers : List String) (rows : List Node) : List Record :=
  rows.filterMap (fun row =>
    let cells := rowCells row
    if cells.length = headers.length then
      some (mkRecord headers (cells.map getTextStrip))
    else none)

/-- Header extraction (`inet_scraper_async_table.py:494-521`): direct-child
`td`s of the header row with the header class, in order. -/
def extractHeaders (headerRow : Node) : List String :=
  (findAllDirect isHeaderCell headerRow).map headerText

/-- The header list `scrape_table` works with for a document, when the table
and its header row are found. -/
def scrape_table_headers (doc : Node) (tid : String) : Option (List String) :=
  match findFirst (isTableWithId tid) doc with
  | none => none
  | some table =>
    match findFirst isHeaderRow table with
    | none => none
    | some hr => some (extractHeaders hr)

/-- Extraction core of `scrape_table` (`inet_scraper_async_table.py:477-542`),
from parsed markup to the returned list of records.  Note that the missing
table and the missing header row are reported only by a printed message; the
function's value in both cases is the empty list. -/
def scrape_table_extract (doc : Node) (tid : String) : List Record :=
  match findFirst (isTableWithId tid) doc with
  | none => []
  | some table =>
    match findFirst isHeaderRow table with
    | none => []
    | some hr => extractRows (extractHeaders hr) (findAll isDataRow table)

/-- A parsed calendar timestamp, as produced by `datetime.strptime` for the
formats the code tries (no sub-second precision appears in any of them). -/
structure DateTime where
  year : Nat
  month : Nat
  day : Nat
  hour : Nat
  minute : Nat
  second : Nat
deriving DecidableEq

/-- `strptime` format directives used by the nine format strings in
`categorize_equipment` (`app.py:161-171`): numeric fields, AM/PM, a literal
character, or whitespace (which `strptime` matches as one-or-more). -/
inductive Dir : Type where
  | dm
  | dd
  | dY
  | dH
  | dI
  | dM
  | dS
  | dp
  | lit (c : Char)
  | ws

/-- Partial parse state with `strptime`'s defaults (year 1900, month 1,
day 1, midnight); `hour12` records that the hour came from `%I`. -/
structure PSt where
  y : Nat
  mo : Nat
  da : Nat
  ho : Nat
  mi : Nat
  se : Nat
  isPM : Option Bool
  hour12 : Bool

def PSt.init : PSt := ⟨1900, 1, 1, 0, 0, 0, none, false⟩

def digitVal (c : Char) : Nat := c.toNat - '0'.toNat

/-- Read one or two decimal digits greedily and check the directive's value
range; all two-digit numeric directives in the formats are followed by a
non-digit separator or the end of input, so this agrees with the regex
alternations `strptime` compiles for them. -/
def takeDigits2 (lo hi : Nat) (cs : List Char) : Option (Nat × List Char) :=
  match cs with
  | [] => none
  | c1 :: rest =>
    if c1.isDigit then
      match rest with
      | c2 :: rest2 =>
        if c2.isDigit then
          let v := digitVal c1 * 10 + digitVal c2
          if lo ≤ v ∧ v ≤ hi then some (v, rest2) else none
        else
          let v := digitVal c1
          if lo ≤ v ∧ v ≤ hi then some (v, rest) else none
      | [] =>
        let v := digitVal c1
        if lo ≤ v ∧ v ≤ hi then some (v, []) else none
    else none

/-- `%Y`: exactly four decimal digits. -/
def takeDigits4 (cs : List Char) : Option (Nat × List Char) :=
  match cs with
  | c1 :: c2 :: c3 :: c4 :: rest =>
    if c1.isDigit && c2.isDigit && c3.isDigit && c4.isDigit then
      some (((digitVal c1 * 10 + digitVal c2) * 10 + digitVal c3) * 10 + digitVal c4, rest)
    else none
  | _ => none

def dropWs : List Char → List Char
  | [] => []
  | c :: cs => if c.isWhitespace then dropWs cs else c :: cs

/-- `%p`: case-insensitive `AM` (false) or `PM` (true). -/
def takeAmPm (cs : List Char) : Option (Bool × List Char) :=
  match cs with
  | c1 :: c2 :: rest =>
    if c1.toLower == 'a' && c2.toLower == 'm' then some (false, rest)
    else if c1.toLower == 'p' && c2.toLower == 'm' then some (true, rest)
    else none
  | _ => none

def runDir (acc : PSt × List Char) (d : Dir) : Option (PSt × List Char) :=
  let st := acc.1
  let cs := acc.2
  match d with
  | .dm => (takeDigits2 1 12 cs).map (fun p => ({ st with mo := p.1 }, p.2))
  | .dd => (takeDigits2 1 31 cs).map (fun p => ({ st with da := p.1 }, p.2))
  | .dY => (takeDigits4 cs).map (fun p => ({ st with y := p.1 }, p.2))
  | .dH => (takeDigits2 0 23 cs).map (fun p => ({ st with ho := p.1 }, p.2))
  | .dI => (takeDigits2 1 12 cs).map (fun p => ({ st with ho := p.1, hour12 := true }, p.2))
  | .dM => (takeDigits2 0 59 cs).map (fun p => ({ st with mi := p.1 }, p.2))
  | .dS => (takeDigits2 0 61 cs).map (fun p => ({ st with se := p.1 }, p.2))
  | .dp => (takeAmPm cs).map (fun p => ({ st with isPM := some p.1 }, p.2))
  | .lit c =>
    match cs with
    | c1 :: rest => if c1 == c then some (st, rest) else none
    | [] => none
  | .ws =>
    match cs with
    | c1 :: rest => if c1.isWhitespace then some (st, dropWs rest) else none
    | [] => none

def isLeap (y : Nat) : Bool := y % 4 == 0 && (y % 100 != 0 || y % 400 == 0)

def daysInMonth (y m : Nat) : Nat :=
  if m == 2 then (if isLeap y then 29 else 28)
  else if m == 4 || m == 6 || m == 9 || m == 11 then 30
  else 31

/-- 12-hour to 24-hour conversion performed by `strptime` when the hour came
from `%I`: `PM` adds 12 except at 12, and 12 `AM` is hour 0. -/
def adjustHour (st : PSt) : Nat :=
  if st.hour12 then
    match st.isPM with
    | some true => if st.ho == 12 then 12 else st.ho + 12
    | _ => if st.ho == 12 then 0 else st.ho
  else st.ho

/-- `datetime.strptime(s, fmt)` for one of the nine formats: run the
directives, require all input consumed, then the `datetime` constructor's
validity checks (year at least 1, day within the month, second at most 59 —
`%S` itself admits leap seconds which `datetime` then rejects). -/
def strptime (fmt : List Dir) (s : String) : Option DateTime :=
  match fmt.foldlM runDir (PSt.init, s.data) with
  | none => none
  | some (st, rest) =>
    if rest.isEmpty then
      if 1 ≤ st.y ∧ st.da ≤ daysInMonth st.y st.mo ∧ st.se ≤ 59 then
        some ⟨st.y, st.mo, st.da, adjustHour st, st.mi, st.se⟩
      else none
    else none

def fmt1 : List Dir := [.dm, .lit '/', .dd, .lit '/', .dY, .ws, .dI, .lit ':', .dM, .ws, .dp]

def fmt2 : List Dir := [.dm, .lit '/', .dd, .lit '/', .dY, .ws, .dH, .lit ':', .dM]

def fmt3 : List Dir := [.dm, .lit '/', .dd, .lit '/', .dY]

def fmt4 : List Dir := [.dY, .lit '-', .dm, .lit '-', .dd, .ws, .dH, .lit ':', .dM, .lit ':', .dS]

def fmt5 : List Dir := [.dY, .lit '-', .dm, .lit '-', .dd, .ws, .dH, .lit ':', .dM]

def fmt6 : List Dir := [.dY, .lit '-', .dm, .lit '-', .dd]

def fmt7 : List Dir := [.dd, .lit '/', .dm, .lit '/', .dY, .ws, .dI, .lit ':', .dM, .ws, .dp]

def fmt8 : List Dir := [.dd, .lit '/', .dm, .lit '/', .dY]

def fmt9 : List Dir := [.dm, .lit '-', .dd, .lit '-', .dY]

/-- The format list of `app.py:161-171`, in source order. -/
def formats : List (List Dir) := [fmt1, fmt2, fmt3, fmt4, fmt5, fmt6, fmt7, fmt8, fmt9]

/-- The per-item date parse loop (`app.py:173-188`): the formats are tried in
order and the first one that parses wins. -/
def parseCalDate (s : String) : Option DateTime :=
  formats.findSome? (fun f => strptime f s)

/-- Days since 0001-01-01 (`date.toordinal`, zero-based). -/
def daysBeforeYear (y : Nat) : Nat :=
  (y - 1) * 365 + (y - 1) / 4 - (y - 1) / 100 + (y - 1) / 400

def daysBeforeMonth (y m : Nat) : Nat :=
  (List.range (m - 1)).foldl (fun acc i => acc + daysInMonth y (i + 1)) 0

def toOrdinal (d : DateTime) : Nat :=
  daysBeforeYear d.year + daysBeforeMonth d.year d.month + (d.day - 1)

def toSecs (d : DateTime) : Int :=
  ((toOrdinal d) * 86400 + d.hour * 3600 + d.minute * 60 + d.second : Nat)

/-- `(cal_date - today).days`: Python `timedelta.days` floors, so this is
floor division of the signed difference in seconds by 86400. -/
def daysDiff (cal now : DateTime) : Int := Int.fdiv (toSecs cal - toSecs now) 86400

/-- The classification chain of `app.py:180-185`. -/
def classifyStatus (dd : Int) : String :=
  if dd < 0 then "danger" else if dd ≤ 10 then "warning" else "ok"

/-- Calibration fields computed for one item (`app.py:152-190`): defaults
`(none, "ok")`; a present, truthy (non-empty) field is stripped and parsed,
and on success both derived fields are set. -/
def categorize_dates (v? : Option String) (now : DateTime) : Option Int × String :=
  match v? with
  | none => (none, "ok")
  | some v =>
    if v = "" then (none, "ok")
    else
      match parseCalDate (pyStrip v) with
      | none => (none, "ok")
      | some cal => (some (daysDiff cal now), classifyStatus (daysDiff cal now))

/-- An item after the categorizer's per-item processing: the scraped fields
plus the derived keys `_days_until_calibration`, `_calibration_status` and
(for docking stations) `_docked_unit`, kept as explicit components. -/
structure CatRecord where
  fields : Record
  days_until_calibration : Option Int
  calibration_status : String
  docked_unit : Option String
deriving DecidableEq

def processItem (now : DateTime) (item : Record) : CatRecord :=
  let r := categorize_dates (recFind? item "Next Calibration Date") now
  ⟨item, r.1, r.2, none⟩

def sortKey (c : CatRecord) : String × String :=
  (recGetD c.fields "Equipment Group" "", recGetD c.fields "Type" "")

/-- Python's ascending tuple order on the sort key of `app.py:198`. -/
def keyLe (a b : CatRecord) : Bool :=
  decide ((sortKey a).1 < (sortKey b).1) ||
    ((sortKey a).1 == (sortKey b).1 && decide ((sortKey a).2 ≤ (sortKey b).2))

/-- Insert into a sorted list, before the first element not below `x` —
the insertion step of a stable ascending sort. -/
def insertLe (le : CatRecord → CatRecord → Bool) (x : CatRecord) : List CatRecord → List CatRecord
  | [] => [x]
  | y :: ys => if le x y then x :: y :: ys else y :: insertLe le x ys

/-- Python's `list.sort(key=...)` is a stable ascending sort; a stable sort
under a total preorder is unique, so insertion sort is an exact model. -/
def stableSort (le : CatRecord → CatRecord → Bool) : List CatRecord → List CatRecord
  | [] => []
  | x :: xs => insertLe le x (stableSort le xs)

def isInstrumentCat (c : CatRecord) : Bool :=
  pyLower (pyStrip (recGetD c.fields "Category" "")) == "instrument"

def isDockingCat (c : CatRecord) : Bool :=
  pyLower (pyStrip (recGetD c.fields "Category" "")) == "docking station"

/-- Access to the dict comprehension of `app.py:202`: instruments with a
truthy (present, non-empty) serial number keyed by it, later entries
overwriting earlier ones, so a lookup returns the last instrument carrying
the serial. -/
def instrument_lookup (instruments : List CatRecord) (s : String) : Option CatRecord :=
  if s = "" then none
  else (instruments.filter (fun i => recGetD i.fields "Serial Number" "" == s)).getLast?

/-- The docking-station loop body (`app.py:204-210`). -/
def dock_station (instruments : List CatRecord) (st : CatRecord) : CatRecord :=
  let docked := pyStrip (recGetD st.fields "Instrument Currently Docked" "")
  if docked = "" then { st with docked_unit := none }
  else
    match instrument_lookup instruments docked with
    | some instr => { st with docked_unit := some (recGetD instr.fields "Equipment Group" "N/A") }
    | none => { st with docked_unit := none }

/-- `categorize_equipment` (`app.py:141-212`): per-item derived fields,
partition by trimmed, lowercased `Category`, stable sort of instruments by
(equipment group, type), then the docked-unit cross-reference. -/
def categorize_equipment (lst : List Record) (now : DateTime) :
    List CatRecord × List CatRecord :=
  let processed := lst.map (processItem now)
  let instruments := stableSort keyLe (processed.filter isInstrumentCat)
  let stations := processed.filter isDockingCat
  (instruments, stations.map (dock_station instruments))

/-- The shared `equipment_data` value (`app.py:45-49`): its exact fields are
`instruments`, `docking_stations` and `last_update` — there is no version
counter in the source. -/
structure EquipmentData where
  instruments : List CatRecord
  docking_stations : List CatRecord
  last_update : Option DateTime
deriving DecidableEq

def initialEquipmentData : EquipmentData := ⟨[], [], none⟩

/-- Outcomes of `scrape_equipment` (`app.py:107-138` together with
`scrape_table`, `inet_scraper_async_table.py:440-546`).  Missing credentials
and exceptions escaping the wrapper yield `None`; a rejected login, a network
error inside `scrape_table`, and a fetched document are handled inside
`scrape_table`, which returns a plain list in every such case. -/
inductive ScrapeOutcome : Type where
  | missingCreds
  | wrapperExn
  | loginRejected
  | fetchError
  | fetched (doc : Node)

/-- The value `scrape_equipment` hands to `update_equipment_data`: note that
`loginRejected` and `fetchError` surface as `some []` because `scrape_table`
catches them and returns `[]` (`inet_scraper_async_table.py:468,546`). -/
def scrape_equipment_model : ScrapeOutcome → Option (List Record)
  | .missingCreds => none
  | .wrapperExn => none
  | .loginRejected => some []
  | .fetchError => some []
  | .fetched doc => some (scrape_table_extract doc defaultTableId)

/-- `update_equipment_data` (`app.py:215-242`): only a `None` scrape result
leaves the shared state untouched; any list — including the empty list that
`scrape_table` returns on failure — replaces the whole snapshot. -/
def update_equipment_data_model (scraped : Option (List Record)) (now : DateTime)
    (prev : EquipmentData) : EquipmentData :=
  match scraped with
  | none => prev
  | some lst =>
    let cat := categorize_equipment lst now
    ⟨cat.1, cat.2, some now⟩

/-- Result of `WebScraperAsync.login`: the returned boolean and whether the
cookie file was written during the call. -/
structure LoginResult where
  success : Bool
  cookiesPersisted : Bool
deriving DecidableEq

/-- The three ways a login attempt can go in
`inet_scraper_async_table.py:166-266`: a network/other exception, no form on
the login page, or a submitted form with some final response URL. -/
inductive LoginAttempt : Type where
  | networkError
  | noForm
  | submitted (finalUrl : String)

/-- The failure heuristic of `inet_scraper_async_table.py:252`:
`login_url in current_url or 'login' in current_url.lower()`. -/
def login_failed_heuristic (login_url current_url : String) : Bool :=
  strContains current_url login_url || strContains (pyLower current_url) "login"

/-- Decision structure of `WebScraperAsync.login`: `save_cookies` runs only
on the success path (`inet_scraper_async_table.py:249-259`). -/
def login_model (login_url : String) : LoginAttempt → LoginResult
  | .networkError => ⟨false, false⟩
  | .noForm => ⟨false, false⟩
  | .submitted u =>
    if login_failed_heuristic login_url u then ⟨false, false⟩ else ⟨true, true⟩

/-- `refresh_data` (`app.py:357-362`): unconditionally start one background
execution of `update_equipment_data` and return the acknowledgement at once.
The state is the number of executions currently in flight; there is no guard
anywhere in the handler or in `update_equipment_data` itself. -/
def refresh_data_step (running : Nat) : Nat × String := (running + 1, "refresh_started")

/-- `n` triggers fired while `running` executions are in flight. -/
def fire_triggers : Nat → Nat → Nat
  | 0, running => running
  | n + 1, running => fire_triggers n (refresh_data_step running).1

/-! Concrete fixtures used by witnesses and counterexamples. -/

/-- A DevExpress-style header cell: class-marked `td` nesting a one-cell table. -/
def demoHeaderCell (t : String) : Node :=
  .elem "td" none [headerCellClass]
    [.elem "table" none [] [.elem "tr" none [] [.elem "td" none [] [.text t]]]]

/-- A data row with the data-row id marker and one `td` per cell text. -/
def demoDataRow (rid : String) (cells : List String) : Node :=
  .elem "tr" (some rid) [] (cells.map (fun c => .elem "td" none [] [.text c]))

/-- A document whose grid has two duplicate (empty) header names. -/
def demoDupHeaderDoc : Node :=
  .elem "html" none []
    [.elem "table" (some "t") []
      [.elem "tr" (some "g_DXHeadersRow0") [] [demoHeaderCell "", demoHeaderCell ""],
       demoDataRow "g_DXDataRow0" ["a", "b"]]]

/-- A document with no element of the requested table id. -/
def demoNoTableDoc : Node :=
  .elem "html" none [] [.elem "div" none [] []]

/-- A document whose grid exists with a header row but zero data rows. -/
def demoEmptyTableDoc : Node :=
  .elem "html" none []
    [.elem "table" (some "t") [] [.elem "tr" (some "g_DXHeadersRow0") [] [demoHeaderCell "A"]]]

/-- A document whose grid exists but has no header-marker row. -/
def demoNoHeaderDoc : Node :=
  .elem "html" none [] [.elem "table" (some "t") [] [.elem "tr" (some "g_Row0") [] []]]

def demoInstr : CatRecord :=
  ⟨[("Category", "Instrument"), ("Serial Number", "ABC123"), ("Equipment Group", "Unit-7")],
    none, "ok", none⟩

def demoStation : CatRecord :=
  ⟨[("Category", "Docking Station"), ("Instrument Currently Docked", " ABC123 ")],
    none, "ok", none⟩

def demoEmptyStation : CatRecord :=
  ⟨[("Category", "Docking Station"), ("Instrument Currently Docked", "   ")],
    none, "ok", none⟩

def demoNow : DateTime := ⟨2025, 10, 19, 2, 0, 0⟩

def itemWarn : Record := [("Next Calibration Date", "10/29/2025 2:00 AM")]

def itemOk : Record := [("Next Calibration Date", "2025-10-30 02:00")]

def itemDanger : Record := [("Next Calibration Date", "10/18/2025 2:00 AM")]

/-! Helper lemmas. -/

theorem mem_of_getLast?_eq {α : Type} {l : List α} {a : α} (h : l.getLast? = some a) :
    a ∈ l := by
  induction l with
  | nil => exact Option.noConfusion h
  | cons x xs ih =>
    cases xs with
    | nil =>
      have : x = a := Option.some.inj h
      exact this ▸ List.mem_singleton_self x
    | cons y ys =>
      rw [List.getLast?_cons_cons] at h
      exact List.mem_cons_of_mem x (ih h)

theorem foldl_dictInsert_nodup (ps : List (String × String)) (acc : Record)
    (hdisj : ∀ p ∈ ps, acc.any (fun q => q.1 == p.1) = false)
    (hnd : (ps.map Prod.fst).Nodup) :
    ps.foldl (fun d p => dictInsert p.1 p.2 d) acc = acc ++ ps := by
  induction ps generalizing acc with
  | nil => simp
  | cons p rest ih =>
    rw [List.foldl_cons]
    have hins : dictInsert p.1 p.2 acc = acc ++ [p] := by
      unfold dictInsert
      rw [hdisj p (List.mem_cons_self p rest)]
      simp
    rw [hins]
    rw [List.map_cons, List.nodup_cons] at hnd
    have hrest : ∀ q ∈ rest, (acc ++ [p]).any (fun r => r.1 == q.1) = false := by
      intro q hq
      rw [List.any_append]
      have h1 : acc.any (fun r => r.1 == q.1) = false :=
        hdisj q (List.mem_cons_of_mem p hq)
      have h2 : ([p].any (fun r => r.1 == q.1)) = false := by
        simp only [List.any_cons, List.any_nil, Bool.or_false]
        rw [beq_eq_false_iff_ne]
        intro hcontra
        exact hnd.1 (hcontra ▸ List.mem_map_of_mem Prod.fst hq)
      rw [h1, h2]
      rfl
    rw [ih (acc ++ [p]) hrest hnd.2, List.append_assoc]
    rfl

/-- C1: the claim says a refresh cycle in which a stage fails (login
rejected, network error, table or header row not found) leaves the
previously published snapshot unchanged.  The code violates this: for every
one of those stages `scrape_table` returns `[]`, `update_equipment_data`
treats any non-`None` result as success, and the previous snapshot is
replaced by an empty one carrying a fresh `last_update`. -/
theorem c1_failed_cycle_overwrites_snapshot :
    scrape_equipment_model .loginRejected = some [] ∧
    scrape_equipment_model .fetchError = some [] ∧
    scrape_equipment_model (.fetched demoNoTableDoc) = some [] ∧
    scrape_equipment_model (.fetched demoNoHeaderDoc) = some [] ∧
    update_equipment_data_model (scrape_equipment_model .loginRejected) ⟨2025, 1, 2, 3, 4, 5⟩
        ⟨[demoInstr], [demoStation], some ⟨2025, 1, 1, 0, 0, 0⟩⟩ =
      ⟨[], [], some ⟨2025, 1, 2, 3, 4, 5⟩⟩ ∧
    (⟨[], [], some ⟨2025, 1, 2, 3, 4, 5⟩⟩ : EquipmentData) ≠
      ⟨[demoInstr], [demoStation], some ⟨2025, 1, 1, 0, 0, 0⟩⟩ := by
  exact ⟨rfl, rfl, rfl, rfl, by decide, by decide⟩

/-- C2 counterexample: the claim says a trigger arriving while a cycle is in
flight is dropped so that at most one execution runs at a time.  In the
code, `refresh_data` unconditionally spawns a background execution of
`update_equipment_data`: with one cycle already running, two further
triggers leave three concurrent executions. -/
theorem c2_counterexample :
    refresh_data_step 1 = (2, "refresh_started") ∧
    fire_triggers 2 1 = 3 ∧ ¬ fire_triggers 2 1 ≤ 1 := by
  exact ⟨rfl, rfl, by decide⟩

/-- C2 amended: there is no single-flight gate — every trigger (timer tick
or `/api/refresh` call) starts one more concurrent execution of
`update_equipment_data`, so `n` triggers fired while `running` executions
are in flight leave `running + n` executions; each trigger does return
promptly with the constant acknowledgement `refresh_started`, independent of
the in-flight state. -/
theorem c2_single_flight_amended (n running : Nat) :
    fire_triggers n running = running + n ∧
    (refresh_data_step running).2 = "refresh_started" := by
  refine ⟨?_, rfl⟩
  induction n generalizing running with
  | zero => rfl
  | succ k ih =>
    show fire_triggers k (running + 1) = running + (k + 1)
    rw [ih (running + 1)]
    omega

/-- C3 counterexample: the claim says every snapshot published on a
successful refresh carries an integer version equal to the previous
snapshot's version plus one.  The published `equipment_data` value has no
version component and is built independently of the previous snapshot, so
no integer-valued function of the snapshot can increase by one across every
successful refresh: publishing the same scrape at the same clock reading
twice yields the very same snapshot value. -/
theorem c3_no_version_counter :
    ¬ ∃ v : EquipmentData → Int,
        ∀ (lst : List Record) (now : DateTime) (prev : EquipmentData),
          v (update_equipment_data_model (some lst) now prev) = v prev + 1 := by
  rintro ⟨v, hv⟩
  have h := hv [] ⟨2025, 1, 1, 0, 0, 0⟩
      (update_equipment_data_model (some []) ⟨2025, 1, 1, 0, 0, 0⟩ initialEquipmentData)
  have hfix : update_equipment_data_model (some []) ⟨2025, 1, 1, 0, 0, 0⟩
      (update_equipment_data_model (some []) ⟨2025, 1, 1, 0, 0, 0⟩ initialEquipmentData) =
      update_equipment_data_model (some []) ⟨2025, 1, 1, 0, 0, 0⟩ initialEquipmentData := rfl
  rw [hfix] at h
  omega

/-- C3 amended: a successful refresh replaces the snapshot wholesale with a
value built only from the freshly scraped list and the current clock
reading — independent of the previous snapshot — and records recency solely
in `last_update = now`; no version counter exists.  A `None` scrape result
leaves the snapshot unchanged. -/
theorem c3_publish_replaces_wholesale (lst : List Record) (now : DateTime)
    (prev prev' : EquipmentData) :
    update_equipment_data_model (some lst) now prev =
      update_equipment_data_model (some lst) now prev' ∧
    (update_equipment_data_model (some lst) now prev).last_update = some now ∧
    update_equipment_data_model none now prev = prev :=
  ⟨rfl, rfl, rfl⟩

/-- C4: for a record whose calibration-date field, stripped, parses under
the first matching of the nine accepted formats, the derived day count is
the floored whole-day difference to `now`, and the status is `danger` below
zero, `warning` in `[0, 10]`, and `ok` above; if no format matches, the day
count stays absent and the status stays `ok`.  Boundary instances: a date
ten days ahead is `warning`, eleven days ahead (in a second accepted
format) is `ok`, one day in the past is `danger`. -/
theorem c4_calibration_classification (item : Record) (now : DateTime) :
    (∀ cal : DateTime,
        parseCalDate (pyStrip (recGetD item "Next Calibration Date" "")) = some cal →
          (processItem now item).days_until_calibration = some (daysDiff cal now) ∧
          (processItem now item).calibration_status =
            (if daysDiff cal now < 0 then "danger"
             else if daysDiff cal now ≤ 10 then "warning" else "ok")) ∧
    (parseCalDate (pyStrip (recGetD item "Next Calibration Date" "")) = none →
        (processItem now item).days_until_calibration = none ∧
        (processItem now item).calibration_status = "ok") ∧
    (processItem demoNow itemWarn).days_until_calibration = some 10 ∧
    (processItem demoNow itemWarn).calibration_status = "warning" ∧
    (processItem demoNow itemOk).days_until_calibration = some 11 ∧
    (processItem demoNow itemOk).calibration_status = "ok" ∧
    (processItem demoNow itemDanger).days_until_calibration = some (-1) ∧
    (processItem demoNow itemDanger).calibration_status = "danger" := by
  have hEmpty : parseCalDate (pyStrip "") = none := by decide
  refine ⟨?_, ?_, by decide, by decide, by decide, by decide, by decide, by decide⟩
  · intro cal hcal
    show (categorize_dates (recFind? item "Next Calibration Date") now).1 = _ ∧
      (categorize_dates (recFind? item "Next Calibration Date") now).2 = _
    cases hf : recFind? item "Next Calibration Date" with
    | none =>
      rw [recGetD, hf, Option.getD_none, hEmpty] at hcal
      exact Option.noConfusion hcal
    | some v =>
      rw [recGetD, hf, Option.getD_some] at hcal
      by_cases hv : v = ""
      · rw [hv, hEmpty] at hcal
        exact Option.noConfusion hcal
      · simp only [categorize_dates]
        rw [if_neg hv, hcal]
        exact ⟨rfl, rfl⟩
  · intro hn
    show (categorize_dates (recFind? item "Next Calibration Date") now).1 = none ∧
      (categorize_dates (recFind? item "Next Calibration Date") now).2 = "ok"
    cases hf : recFind? item "Next Calibration Date" with
    | none => exact ⟨rfl, rfl⟩
    | some v =>
      rw [recGetD, hf, Option.getD_some] at hn
      simp only [categorize_dates]
      by_cases hv : v = ""
      · rw [if_pos hv]
        exact ⟨rfl, rfl⟩
      · rw [if_neg hv, hn]
        exact ⟨rfl, rfl⟩

/-- C4 witness: the general classification applied at the concrete
ten-days-ahead record. -/
theorem c4_calibration_classification_witness :
    (processItem demoNow itemWarn).days_until_calibration =
        some (daysDiff ⟨2025, 10, 29, 2, 0, 0⟩ demoNow) ∧
    (processItem demoNow itemWarn).calibration_status =
      (if daysDiff ⟨2025, 10, 29, 2, 0, 0⟩ demoNow < 0 then "danger"
       else if daysDiff ⟨2025, 10, 29, 2, 0, 0⟩ demoNow ≤ 10 then "warning" else "ok") :=
  (c4_calibration_classification itemWarn demoNow).1 ⟨2025, 10, 29, 2, 0, 0⟩ (by decide)

/-- C5: a data row whose cell count differs from the header count is
silently dropped — it contributes no record — and the output on the
remaining rows is exactly what it would have been had the malformed row not
been present at all. -/
theorem c5_row_skip (headers : List String) (pre post : List Node) (bad : Node)
    (hbad : (rowCells bad).length ≠ headers.length) :
    extractRows headers (pre ++ bad :: post) = extractRows headers (pre ++ post) ∧
    extractRows headers [bad] = [] := by
  have hnone : (if (rowCells bad).length = headers.length then
      some (mkRecord headers ((rowCells bad).map getTextStrip)) else none) = none :=
    if_neg hbad
  constructor
  · simp only [extractRows, List.filterMap_append, List.filterMap_cons, hnone]
  · simp only [extractRows, List.filterMap_cons, List.filterMap_nil, hnone]

/-- C5 witness: dropping a one-cell row among two-cell rows under a
two-column header. -/
theorem c5_row_skip_witness :
    extractRows ["A", "B"]
        ([demoDataRow "g_DXDataRow0" ["x", "y"]] ++
          demoDataRow "g_DXDataRow1" ["z"] :: [demoDataRow "g_DXDataRow2" ["u", "v"]]) =
      extractRows ["A", "B"]
        ([demoDataRow "g_DXDataRow0" ["x", "y"]] ++ [demoDataRow "g_DXDataRow2" ["u", "v"]]) ∧
    extractRows ["A", "B"] [demoDataRow "g_DXDataRow1" ["z"]] = [] :=
  c5_row_skip ["A", "B"] [demoDataRow "g_DXDataRow0" ["x", "y"]]
    [demoDataRow "g_DXDataRow2" ["u", "v"]] (demoDataRow "g_DXDataRow1" ["z"]) (by decide)

/-- C6: the docking station's "currently docked" field is stripped of
surrounding whitespace; when the stripped value is a key of the instrument
lookup, the station's derived docked-unit is that instrument's equipment
group (default `N/A`); when it matches no instrument, the docked-unit is
absent; and when several instruments share a serial, the lookup returns the
last of them. -/
theorem c6_cross_reference (instruments : List CatRecord) (st : CatRecord) :
    (∀ instr : CatRecord,
        instrument_lookup instruments
            (pyStrip (recGetD st.fields "Instrument Currently Docked" "")) = some instr →
          (dock_station instruments st).docked_unit =
            some (recGetD instr.fields "Equipment Group" "N/A")) ∧
    (instrument_lookup instruments
        (pyStrip (recGetD st.fields "Instrument Currently Docked" "")) = none →
      (dock_station instruments st).docked_unit = none) ∧
    (∀ (pre post : List CatRecord) (instr : CatRecord) (s : String),
        s ≠ "" → recGetD instr.fields "Serial Number" "" = s →
        (∀ j ∈ post, recGetD j.fields "Serial Number" "" ≠ s) →
        instrument_lookup (pre ++ instr :: post) s = some instr) := by
  refine ⟨?_, ?_, ?_⟩
  · intro instr h
    by_cases hd : pyStrip (recGetD st.fields "Instrument Currently Docked" "") = ""
    · rw [hd] at h
      have hnone : instrument_lookup instruments "" = none := by
        simp [instrument_lookup]
      rw [hnone] at h
      exact Option.noConfusion h
    · simp only [dock_station]
      rw [if_neg hd, h]
  · intro h
    by_cases hd : pyStrip (recGetD st.fields "Instrument Currently Docked" "") = ""
    · simp only [dock_station]
      rw [if_pos hd]
    · simp only [dock_station]
      rw [if_neg hd, h]
  · intro pre post instr s hs hser hpost
    simp only [instrument_lookup]
    rw [if_neg hs, List.filter_append, List.filter_cons]
    have h1 : (recGetD instr.fields "Serial Number" "" == s) = true := by
      rw [hser]
      exact beq_self_eq_true s
    have h2 : (post.filter fun i => recGetD i.fields "Serial Number" "" == s) = [] := by
      rw [List.filter_eq_nil_iff]
      intro j hj hb
      exact hpost j hj (eq_of_beq hb)
    rw [h1, if_pos rfl, h2]
    exact List.getLast?_concat _

/-- C6 witness: `" ABC123 "` strips to the serial of the demo instrument
and yields its equipment group; with no instruments the docked-unit is
absent; and the last-wins lookup at a one-element list. -/
theorem c6_cross_reference_witness :
    (dock_station [demoInstr] demoStation).docked_unit = some "Unit-7" ∧
    (dock_station [] demoStation).docked_unit = none ∧
    instrument_lookup ([] ++ demoInstr :: []) "ABC123" = some demoInstr := by
  refine ⟨?_, ?_, ?_⟩
  · have h := (c6_cross_reference [demoInstr] demoStation).1 demoInstr (by decide)
    rw [h]
    decide
  · exact (c6_cross_reference [] demoStation).2.1 (by decide)
  · exact (c6_cross_reference [demoInstr] demoStation).2.2 [] [] demoInstr "ABC123"
      (by decide) (by decide) (by intro j hj; exact absurd hj (List.not_mem_nil j))

/-- C7 counterexample: the claim says every record exposes one entry per
header column.  With two (empty-placeholder) duplicate header names, the
Python dict collapses the columns: the extracted record of a two-cell row
has a single entry holding the second cell's text, not two entries. -/
theorem c7_counterexample :
    scrape_table_headers demoDupHeaderDoc "t" = some ["", ""] ∧
    scrape_table_extract demoDupHeaderDoc "t" = [[("", "b")]] ∧
    ¬ ([("", "b")] : Record).length = 2 := by
  exact ⟨by decide, by decide, by decide⟩

/-- C7 amended: the record pairs cell text to header name by position in
declared header order, with empty header text preserved as an empty-string
placeholder; when the header names are pairwise distinct the record is
exactly the positional zip of headers with cell texts (one entry per header
column), but duplicate header names — such as several empty placeholders —
collapse into a single entry holding the last duplicate column's cell
text. -/
theorem c7_positional_zip (headers : List String) (cellTexts : List String)
    (hnd : headers.Nodup) (hlen : headers.length = cellTexts.length) :
    mkRecord headers cellTexts = headers.zip cellTexts := by
  have hkeys : (headers.zip cellTexts).map Prod.fst = headers :=
    List.map_fst_zip headers cellTexts (le_of_eq hlen)
  have h := foldl_dictInsert_nodup (headers.zip cellTexts) []
    (fun p _ => rfl) (by rw [hkeys]; exact hnd)
  rw [mkRecord, h]
  rfl

/-- C7 witness: the positional zip at a concrete two-column header with
distinct names. -/
theorem c7_positional_zip_witness :
    mkRecord ["A", "B"] ["x", "y"] = [("A", "x"), ("B", "y")] := by
  have h := c7_positional_zip ["A", "B"] ["x", "y"] (by decide) (by decide)
  rw [h]
  rfl

/-- C8 counterexample: the claim says the extractor fails with
distinguishable errors for a missing table and a missing header row,
distinguishable from a successful extraction of zero data rows.  In the
code all three situations produce the same value, the empty list — the
failures are reported only by printed messages. -/
theorem c8_counterexample :
    scrape_table_extract demoNoTableDoc "t" = scrape_table_extract demoEmptyTableDoc "t" ∧
    scrape_table_extract demoNoHeaderDoc "t" = scrape_table_extract demoEmptyTableDoc "t" ∧
    scrape_table_extract demoEmptyTableDoc "t" = [] ∧
    scrape_table_headers demoEmptyTableDoc "t" = some ["A"] := by
  exact ⟨by decide, by decide, by decide, by decide⟩

/-- C8 amended: when no element with the given identifier exists, or the
table has no row whose id carries the header marker, `scrape_table` returns
the empty list — the same value as a successful extraction of a table with
zero data rows, so the two failures are not distinguishable from empty
success in the returned value. -/
theorem c8_structural_failures_empty (doc : Node) (tid : String) :
    (findFirst (isTableWithId tid) doc = none → scrape_table_extract doc tid = []) ∧
    (∀ tbl : Node, findFirst (isTableWithId tid) doc = some tbl →
        findFirst isHeaderRow tbl = none → scrape_table_extract doc tid = []) := by
  constructor
  · intro h
    simp only [scrape_table_extract]
    rw [h]
  · intro tbl h1 h2
    simp only [scrape_table_extract]
    rw [h1]
    show (match findFirst isHeaderRow tbl with
      | none => ([] : List Record)
      | some hr => extractRows (extractHeaders hr) (findAll isDataRow tbl)) = []
    rw [h2]

/-- C8 witness: the amended statement applied at a document with no table
and at a document whose table lacks a header row. -/
theorem c8_structural_failures_empty_witness :
    scrape_table_extract demoNoTableDoc "t" = [] ∧
    scrape_table_extract demoNoHeaderDoc "t" = [] :=
  ⟨(c8_structural_failures_empty demoNoTableDoc "t").1 rfl,
   (c8_structural_failures_empty demoNoHeaderDoc "t").2
     (.elem "table" (some "t") [] [.elem "tr" (some "g_Row0") [] []]) rfl rfl⟩

/-- C9: when the submitted login form's final response URL still contains
the login page URL, or contains the marker `login` after lowercasing,
`login()` reports failure and does not persist cookies; otherwise it
reports success and persists the session cookies.  In every attempt the
cookie store is written exactly when the call reports success. -/
theorem c9_login_heuristic (login_url finalUrl : String) :
    ((strContains finalUrl login_url || strContains (pyLower finalUrl) "login") = true →
        login_model login_url (.submitted finalUrl) = ⟨false, false⟩) ∧
    ((strContains finalUrl login_url || strContains (pyLower finalUrl) "login") = false →
        login_model login_url (.submitted finalUrl) = ⟨true, true⟩) ∧
    (∀ attempt : LoginAttempt,
        (login_model login_url attempt).cookiesPersisted = (login_model login_url attempt).success) := by
  refine ⟨?_, ?_, ?_⟩
  · intro h
    simp only [login_model, login_failed_heuristic, h]
    rfl
  · intro h
    simp only [login_model, login_failed_heuristic, h]
    rfl
  · intro attempt
    cases attempt with
    | networkError => rfl
    | noForm => rfl
    | submitted u =>
      simp only [login_model]
      by_cases h : login_failed_heuristic login_url u = true
      · rw [if_pos h]
      · rw [if_neg h]

/-- C9 witness: a final URL still on the login page fails without
persisting; a dashboard final URL succeeds and persists. -/
theorem c9_login_heuristic_witness :
    login_model "https://inet.example/Login.aspx"
        (.submitted "https://inet.example/Login.aspx?failed=1") = ⟨false, false⟩ ∧
    login_model "https://inet.example/Login.aspx"
        (.submitted "https://inet.example/Dashboard/Home.aspx") = ⟨true, true⟩ :=
  ⟨(c9_login_heuristic "https://inet.example/Login.aspx"
      "https://inet.example/Login.aspx?failed=1").1 (by decide),
   (c9_login_heuristic "https://inet.example/Login.aspx"
      "https://inet.example/Dashboard/Home.aspx").2.1 (by decide)⟩

/-- C10: the serial-number lookup only ever returns instruments whose
serial-number field is present and non-empty (and equal to the looked-up
key, which is itself non-empty), and a docking station whose stripped
"currently docked" field is empty always gets an absent docked-unit — so an
empty docked field can never match an instrument with a missing or empty
serial. -/
theorem c10_lookup_nonempty_serials (instruments : List CatRecord) (st : CatRecord) :
    (pyStrip (recGetD st.fields "Instrument Currently Docked" "") = "" →
        (dock_station instruments st).docked_unit = none) ∧
    (∀ (s : String) (instr : CatRecord), instrument_lookup instruments s = some instr →
        s ≠ "" ∧ recGetD instr.fields "Serial Number" "" = s ∧
          recFind? instr.fields "Serial Number" ≠ none) := by
  constructor
  · intro h
    simp only [dock_station]
    rw [if_pos h]
  · intro s instr h
    by_cases hs : s = ""
    · rw [hs] at h
      have hnone : instrument_lookup instruments "" = none := by
        simp [instrument_lookup]
      rw [hnone] at h
      exact Option.noConfusion h
    · simp only [instrument_lookup, if_neg hs] at h
      have hmem := mem_of_getLast?_eq h
      have hpred := (List.mem_filter.mp hmem).2
      have heq : recGetD instr.fields "Serial Number" "" = s := eq_of_beq hpred
      refine ⟨hs, heq, ?_⟩
      intro hfind
      rw [recGetD, hfind] at heq
      exact hs heq.symm

/-- C10 witness: an all-whitespace docked field yields an absent docked
unit, and the concrete lookup returns only the non-empty-serial demo
instrument. -/
theorem c10_lookup_nonempty_serials_witness :
    (dock_station [demoInstr] demoEmptyStation).docked_unit = none ∧
    ("ABC123" ≠ "" ∧ recGetD demoInstr.fields "Serial Number" "" = "ABC123" ∧
      recFind? demoInstr.fields "Serial Number" ≠ none) :=
  ⟨(c10_lookup_nonempty_serials [demoInstr] demoEmptyStation).1 (by decide),
   (c10_lookup_nonempty_serials [demoInstr] demoEmptyStation).2 "ABC123" demoInstr (by decide)⟩

end Inet
